import Mathlib

/-!
Verification of the chatbot backend (FastAPI + Claude + MCP tools).

The definitions below are a shallow embedding of the Python source:

* `src/backend/app/services/claude.py`   — `ClaudeService.get_completion`,
  the tool-use conversation loop;
* `src/backend/app/services/claude_enhanced.py` — the streaming event loop
  of `ClaudeEnhancedService.get_streaming_completion_with_tools`;
* `src/backend/app/services/mcp_service.py` — `MCPService.execute_tool`
  and the set of attributes actually defined on `MCPService`;
* `src/backend/app/api/routes/v1/chat/router.py` — the non-streaming chat
  handler, the streaming generator and the endpoint boundary.

External effects (clock, randomness, uuid, Python `eval`, base64/url
transforms) are passed in as oracle records; the Anthropic gateway is a
scripted list of responses, exactly as the repository's own tests mock it.
-/

namespace Chatbot

/-- Lower-case a string character by character, as Python `str.lower` does on
the ASCII error messages that occur in this code base. -/
def pyToLower (s : String) : String := ⟨s.data.map Char.toLower⟩

/-- Search for `pat` as a contiguous sublist of `l` (Python `in` on strings). -/
def sublistSearch (pat : List Char) : List Char → Bool
  | [] => pat.isEmpty
  | c :: cs => List.isPrefixOf pat (c :: cs) || sublistSearch pat cs

/-- Python's `pat in s` substring test. -/
def strContains (s pat : String) : Bool := sublistSearch pat.data s.data

/-- Python `str.split()` whitespace class (space, tab, newline, vertical tab,
form feed, carriage return). -/
def isPySpace (c : Char) : Bool :=
  c == ' ' || c == '\t' || c == '\n' || c == Char.ofNat 11 || c == Char.ofNat 12 || c == '\r'

/-- Helper for `pySplitWs`: walk the characters, `cur` holds the reversed
characters of the word being read. -/
def pyWordsAux : List Char → List Char → List String
  | [], cur => if cur.isEmpty then [] else [⟨cur.reverse⟩]
  | c :: cs, cur =>
    if isPySpace c then
      if cur.isEmpty then pyWordsAux cs [] else (⟨cur.reverse⟩ : String) :: pyWordsAux cs []
    else pyWordsAux cs (c :: cur)

/-- Python `s.split()` with no separator: split on runs of whitespace and drop
empty pieces. -/
def pySplitWs (s : String) : List String := pyWordsAux s.data []

/-- `len(s.split())`, the coarse word-count token approximation used for the
usage statistics in `router.py`. -/
def wordCount (s : String) : Nat := (pySplitWs s).length

/-- Helper for `joinWords`: the words after the first, each preceded by one
space. -/
def joinRest : List String → String
  | [] => ""
  | w :: ws => " " ++ w ++ joinRest ws

/-- Python `" ".join(words)`: words rejoined with single spaces. -/
def joinWords : List String → String
  | [] => ""
  | w :: ws => w ++ joinRest ws

/-- One content block of an Anthropic response: plain text, or a tool-use
instruction carrying a call id, a tool name and an (already parsed, held
opaquely as a string) argument payload. -/
inductive ContentBlock
  | text (s : String)
  | toolUse (id name input : String)
deriving DecidableEq

/-- The content of one history entry: a plain string (user turns), the block
list of an assistant response, or a tool-result entry tagged with the call id. -/
inductive MsgContent
  | str (s : String)
  | blocks (bs : List ContentBlock)
  | toolResult (toolUseId : String) (result : String)
deriving DecidableEq

/-- One `{role, content}` entry of the conversation history. -/
structure Message where
  role : String
  content : MsgContent
deriving DecidableEq

/-- One response of the model gateway: an ordered list of content blocks
(`response.content` in `claude.py`). -/
structure Response where
  content : List ContentBlock
deriving DecidableEq

/-- Step 1 of `ClaudeService.get_completion` (and of the streaming variant,
lines 54-57 and 137-140 of `claude.py`): append the user message to the
history unless the last entry's content already equals it. -/
def appendUserMessage (history : List Message) (message : String) : List Message :=
  match history.getLast? with
  | none => history ++ [⟨"user", MsgContent.str message⟩]
  | some last =>
    if last.content = MsgContent.str message then history
    else history ++ [⟨"user", MsgContent.str message⟩]

theorem appendUserMessage_nil (message : String) :
    appendUserMessage [] message = [⟨"user", MsgContent.str message⟩] := rfl

/-- C8: the Conversation Loop appends the user message to history exactly when
the history is empty or the last entry's content differs from the message;
when the last entry's content already equals the message, the history is left
unchanged. -/
theorem idempotent_append_guard (history : List Message) (message : String) :
    (appendUserMessage history message =
        history ++ [⟨"user", MsgContent.str message⟩] ↔
      history = [] ∨
        ∃ last, history.getLast? = some last ∧ last.content ≠ MsgContent.str message) ∧
    (∀ last, history.getLast? = some last → last.content = MsgContent.str message →
      appendUserMessage history message = history) := by
  constructor
  · unfold appendUserMessage
    cases hl : history.getLast? with
    | none =>
      simp only [List.getLast?_eq_none_iff] at hl
      simp [hl]
    | some last =>
      have hne : history ≠ [] := by
        intro h
        rw [h] at hl
        simp at hl
      by_cases hc : last.content = MsgContent.str message
      · simp only [if_pos hc]
        constructor
        · intro h
          have := congrArg List.length h
          simp at this
        · intro h
          rcases h with h | ⟨last', hl', hc'⟩
          · exact absurd h hne
          · cases hl'
            exact absurd hc hc'
      · simp only [if_neg hc, true_iff, iff_true]
        exact Or.inr ⟨last, rfl, hc⟩
  · intro last hl hc
    unfold appendUserMessage
    rw [hl]
    simp [hc]

theorem idempotent_append_guard_spot :
    appendUserMessage [⟨"user", MsgContent.str "hi"⟩] "hi" = [⟨"user", MsgContent.str "hi"⟩] :=
  (idempotent_append_guard [⟨"user", MsgContent.str "hi"⟩] "hi").2
    ⟨"user", MsgContent.str "hi"⟩ rfl rfl

/-- One tool advertised to Claude, shaped as in
`MCPService.get_tools_for_claude`. -/
structure ToolSpec where
  name : String
  description : String
  inputSchema : String
deriving DecidableEq

/-- The registry operations `ClaudeService` invokes on `mcp_service`:
`get_tools()` (its result, or the exception it raises) and
`call_tool(name, input)`.  The repository's tests substitute both with mocks;
`realEnv` below is the behaviour of the actual `MCPService` instance. -/
structure Env where
  getTools : Except String (List ToolSpec)
  callTool : String → String → Except String String

/-- The `except` clause of `ClaudeService.get_completion` (lines 103-111 of
`claude.py`): classify the exception text by substring inspection and re-raise. -/
def classifyError (e : String) : String :=
  if strContains (pyToLower e) "api_key" then "Invalid or missing API key"
  else if strContains (pyToLower e) "rate" then "Rate limit exceeded. Please try again later."
  else "Claude API error: " ++ e

/-- `ClaudeService._execute_tool`: call the registry and convert any raised
exception into an error-describing string. -/
def execTool (env : Env) (name input : String) : String :=
  match env.callTool name input with
  | Except.ok r => r
  | Except.error e => "Error executing tool: " ++ e

/-- The walk of `response.content` in `get_completion` (lines 78-99 of
`claude.py`): accumulate the text of the blocks before the first tool-use
block, and report that first tool-use block if there is one; the `break`
statement means every block after it is ignored. -/
def splitAtToolUse : List ContentBlock → String × Option (String × String × String)
  | [] => ("", none)
  | ContentBlock.text s :: bs =>
    let r := splitAtToolUse bs
    (s ++ r.1, r.2)
  | ContentBlock.toolUse i n inp :: _ => ("", some (i, n, inp))

/-- `ClaudeService.get_completion`, with the Anthropic gateway replaced by the
scripted list of responses the tests feed through `messages.create.side_effect`
(an exhausted script models the mock raising).  Returns the produced text
together with the list of `(name, input)` registry invocations, or the text of
the exception the call raises.  Mirrors, in order: the idempotent history
append, the `mcp_service.get_tools()` call, the gateway call, the walk of the
content blocks with recursive continuation on tool use, and the
`"No response generated"` placeholder for an empty result. -/
def getCompletion (env : Env) : List Response → String → List Message →
    Except String (String × List (String × String))
  | [], message, history =>
    let _messages := appendUserMessage history message
    match env.getTools with
    | Except.error e => Except.error (classifyError e)
    | Except.ok _ => Except.error (classifyError "mock gateway has no scripted response left")
  | r :: rest, message, history =>
    let messages := appendUserMessage history message
    match env.getTools with
    | Except.error e => Except.error (classifyError e)
    | Except.ok _ =>
      match splitAtToolUse r.content with
      | (text, none) =>
        Except.ok (if text = "" then "No response generated" else text, [])
      | (text, some (tid, tname, tinput)) =>
        let toolResult := execTool env tname tinput
        let messages2 := messages ++
          [⟨"assistant", MsgContent.blocks r.content⟩,
           ⟨"user", MsgContent.toolResult tid toolResult⟩]
        match getCompletion env rest "" messages2 with
        | Except.error e => Except.error (classifyError e)
        | Except.ok (cont, calls) =>
          let full := text ++ cont
          Except.ok (if full = "" then "No response generated" else full,
            (tname, tinput) :: calls)

/-- All blocks of the list are plain text blocks. -/
def allText : List ContentBlock → Bool
  | [] => true
  | ContentBlock.text _ :: bs => allText bs
  | ContentBlock.toolUse _ _ _ :: _ => false

/-- The concatenated text of the text blocks of a response. -/
def fullText : List ContentBlock → String
  | [] => ""
  | ContentBlock.text s :: bs => s ++ fullText bs
  | ContentBlock.toolUse _ _ _ :: bs => fullText bs

/-- The text accumulated before the walk stops (first component of the walk). -/
def leadingText (bs : List ContentBlock) : String := (splitAtToolUse bs).1

theorem splitAtToolUse_allText (bs : List ContentBlock) (h : allText bs = true) :
    splitAtToolUse bs = (fullText bs, none) := by
  induction bs with
  | nil => rfl
  | cons b bs ih =>
    cases b with
    | text s =>
      simp only [allText] at h
      simp [splitAtToolUse, fullText, ih h]
    | toolUse i n inp => simp [allText] at h

theorem splitAtToolUse_append (pre post : List ContentBlock) (h : allText pre = true)
    (tid tname tinput : String) :
    splitAtToolUse (pre ++ ContentBlock.toolUse tid tname tinput :: post) =
      (fullText pre, some (tid, tname, tinput)) := by
  induction pre with
  | nil => rfl
  | cons b bs ih =>
    cases b with
    | text s =>
      simp only [allText] at h
      simp [splitAtToolUse, fullText, ih h]
    | toolUse i n inp => simp [allText] at h

theorem append_ne_empty_right (s t : String) (h : t ≠ "") : s ++ t ≠ "" := by
  intro heq
  apply h
  have hd := congrArg String.data heq
  rw [String.data_append] at hd
  have : t.data = [] := (List.append_eq_nil.mp hd).2
  exact String.ext this

theorem append_ne_empty_left (s t : String) (h : s ≠ "") : s ++ t ≠ "" := by
  intro heq
  apply h
  have hd := congrArg String.data heq
  rw [String.data_append] at hd
  have : s.data = [] := (List.append_eq_nil.mp hd).1
  exact String.ext this

/-- C1 (amended): with the registry's tool listing succeeding and a scripted
gateway whose first response is text blocks, then one tool-use block, then
arbitrary further blocks, and whose second response is all text: the loop
returns the leading text of the first response followed by the full text of
the second response — except that an empty second text is replaced by the
placeholder `"No response generated"` produced by the recursive call — and the
registry is invoked exactly once, with the tool-use block's parsed arguments;
blocks after the first tool-use block never contribute. -/
theorem c1_tool_round_trip_amended
    (env : Env) (ts : List ToolSpec) (henv : env.getTools = Except.ok ts)
    (pre post r2 : List ContentBlock) (hpre : allText pre = true) (hr2 : allText r2 = true)
    (tid tname tinput msg : String) (hist : List Message) :
    getCompletion env [⟨pre ++ ContentBlock.toolUse tid tname tinput :: post⟩, ⟨r2⟩] msg hist =
      Except.ok
        (fullText pre ++ (if fullText r2 = "" then "No response generated" else fullText r2),
         [(tname, tinput)]) := by
  have h1 := splitAtToolUse_append pre post hpre tid tname tinput
  have h2 := splitAtToolUse_allText r2 hr2
  by_cases h : fullText r2 = ""
  · have hne : fullText pre ++ "No response generated" ≠ "" :=
      append_ne_empty_right _ _ (by decide)
    simp [getCompletion, henv, h1, h2, h, hne]
  · have hne : fullText pre ++ fullText r2 ≠ "" := append_ne_empty_right _ _ h
    simp [getCompletion, henv, h1, h2, h, hne]

/-- A mocked environment as in `test_get_completion_with_tool_use`. -/
def c1WitnessEnv : Env :=
  ⟨Except.ok [⟨"get_weather", "Get weather for a location", "object"⟩],
   fun _ _ => Except.ok "Weather in New York: Sunny, 72F"⟩

/-- Equality of `Except` results is decidable componentwise. -/
instance exceptDecEq {ε α : Type} [DecidableEq ε] [DecidableEq α] :
    DecidableEq (Except ε α) := fun x y =>
  match x, y with
  | Except.ok a, Except.ok b =>
    if h : a = b then isTrue (by rw [h]) else isFalse (by intro hx; cases hx; exact h rfl)
  | Except.error a, Except.error b =>
    if h : a = b then isTrue (by rw [h]) else isFalse (by intro hx; cases hx; exact h rfl)
  | Except.ok _, Except.error _ => isFalse (by intro hx; cases hx)
  | Except.error _, Except.ok _ => isFalse (by intro hx; cases hx)

theorem c1_tool_round_trip_witness :
    getCompletion c1WitnessEnv
      [⟨[ContentBlock.text "Checking. ", ContentBlock.toolUse "tool_123" "get_weather" "loc=NY"]⟩,
       ⟨[ContentBlock.text "It is sunny."]⟩] "weather?" [] =
      Except.ok ("Checking. It is sunny.", [("get_weather", "loc=NY")]) :=
  (c1_tool_round_trip_amended c1WitnessEnv _ rfl [ContentBlock.text "Checking. "] []
    [ContentBlock.text "It is sunny."] rfl rfl "tool_123" "get_weather" "loc=NY"
    "weather?" []).trans (by decide)

/-- Mocked environment for the counterexample run. -/
def c1CexEnv : Env := ⟨Except.ok [], fun _ _ => Except.ok "tool result"⟩

/-- Scripted gateway whose first response is a single tool-use block and whose
second response is a single empty text block. -/
def c1CexScript : List Response :=
  [⟨[ContentBlock.toolUse "t1" "calculate" "expr=1+1"]⟩, ⟨[ContentBlock.text ""]⟩]

/-- C1 counterexample: on a second response consisting of one empty text
block, the loop returns the placeholder `"No response generated"`, not the
concatenation (empty here) of the leading text of the first response and the
full text of the second response that the claim prescribes. -/
theorem c1_tool_round_trip_counterexample :
    getCompletion c1CexEnv c1CexScript "hi" [] =
      Except.ok ("No response generated", [("calculate", "expr=1+1")]) ∧
    getCompletion c1CexEnv c1CexScript "hi" [] ≠
      Except.ok (leadingText [ContentBlock.toolUse "t1" "calculate" "expr=1+1"] ++
        fullText [ContentBlock.text ""], [("calculate", "expr=1+1")]) := by
  decide

/-- The note appended to the echo text when no API key is configured
(`router.py`, lines 24-28 and 76-80). -/
def noKeyNote : String :=
  "Note: Claude AI is not available. No Anthropic API key has been provided. " ++
  "Please set the ANTHROPIC_API_KEY environment variable to enable Claude."

/-- Fallback text of the non-streaming handler when `claude_service` is not
available. -/
def echoUnavailableText (message : String) : String :=
  "Echo: " ++ message ++ "\n\n" ++ noKeyNote

/-- Fallback text of the non-streaming handler when `get_completion` raises. -/
def echoErrorText (message err : String) : String :=
  "Echo: " ++ message ++ "\n\n" ++ "Note: Claude encountered an error: " ++ err

/-- Modelled from the spec: the `ChatMessage` response shape of section 6
(`{id, text, sender, timestamp}`); the backend `models.py` module is not under
`src/`, only its use in `router.py`. -/
structure ChatMessage where
  id : String
  text : String
  sender : String
  timestamp : String
deriving DecidableEq

/-- Modelled from the spec: the usage statistics envelope of section 6. -/
structure Usage where
  promptTokens : Nat
  completionTokens : Nat
  totalTokens : Nat
deriving DecidableEq

/-- Modelled from the spec: the non-streaming response envelope
`{message, usage}` of section 6. -/
structure ChatCompletionResponse where
  message : ChatMessage
  usage : Usage
deriving DecidableEq

/-- The `response_text` computation of `handle_non_streaming_chat`
(`router.py`, lines 22-41): echo with the no-key note when the service is
unavailable, the completion's text when it succeeds, echo with the error note
when it raises. -/
def responseTextFor (available : Bool) (completion : Except String String)
    (message : String) : String :=
  if available then
    match completion with
    | Except.ok t => t
    | Except.error e => echoErrorText message e
  else echoUnavailableText message

/-- `handle_non_streaming_chat` (`router.py`, lines 12-57): build the bot
message and the word-count usage statistics.  `now` stands in for
`datetime.now()` used for the id and the timestamp. -/
def handleNonStreamingChat (available : Bool) (completion : Except String String)
    (message now : String) : ChatCompletionResponse :=
  let responseText := responseTextFor available completion message
  { message := { id := now, text := responseText, sender := "bot", timestamp := now },
    usage := { promptTokens := wordCount message,
               completionTokens := wordCount responseText,
               totalTokens := wordCount message + wordCount responseText } }

/-- Outcome at the HTTP boundary: a JSON response, or an `HTTPException`. -/
inductive HttpResult
  | ok (status : Nat) (resp : ChatCompletionResponse)
  | serverError (status : Nat) (detail : String)
deriving DecidableEq

/-- Whether the boundary produced a normal (non-exception) response. -/
def HttpResult.isOkResult : HttpResult → Bool
  | HttpResult.ok _ _ => true
  | HttpResult.serverError _ _ => false

/-- The outer `try`/`except` of `handle_non_streaming_chat` (`router.py`,
lines 18 and 58-59): any exception escaping the handler body becomes
`HTTPException(500, "Error processing chat request: ...")`. -/
def chatBoundary (body : Except String ChatCompletionResponse) : HttpResult :=
  match body with
  | Except.ok r => HttpResult.ok 200 r
  | Except.error e => HttpResult.serverError 500 ("Error processing chat request: " ++ e)

/-- The non-streaming endpoint: the handler body is total in this model (the
inner `except` already swallows the completion failure), wrapped by the
boundary. -/
def nonStreamingEndpoint (available : Bool) (completion : Except String String)
    (message now : String) : HttpResult :=
  chatBoundary (Except.ok (handleNonStreamingChat available completion message now))

/-- C3: when the gateway is available but its completion call raises, the
endpoint still returns a 200 response whose text is the echo of the message
with a note carrying the raised error's message; no exception escapes the
non-streaming endpoint, and an exception reaching the boundary would be
converted to a generic server error carrying its text. -/
theorem c3_fallback_on_gateway_failure (msg e now : String) :
    nonStreamingEndpoint true (Except.error e) msg now =
      HttpResult.ok 200 (handleNonStreamingChat true (Except.error e) msg now) ∧
    (handleNonStreamingChat true (Except.error e) msg now).message.text =
      "Echo: " ++ msg ++ "\n\n" ++ "Note: Claude encountered an error: " ++ e ∧
    (∀ (avail : Bool) (comp : Except String String),
      (nonStreamingEndpoint avail comp msg now).isOkResult = true) ∧
    (∀ e2 : String, chatBoundary (Except.error e2) =
      HttpResult.serverError 500 ("Error processing chat request: " ++ e2)) :=
  ⟨rfl, rfl, fun _ _ => rfl, fun _ => rfl⟩

/-- C4: with no credential configured, the non-streaming response text is
exactly the echo of the message, a blank line, and the not-available note; in
particular it starts with `"Echo: "` plus the message, and for
`"Hello, test!"` it is the exact scenario string. -/
theorem c4_no_credential_echo (msg now : String) (comp : Except String String)
    (h : msg ≠ "") :
    (handleNonStreamingChat false comp msg now).message.text =
      "Echo: " ++ msg ++ "\n\n" ++ noKeyNote ∧
    (∃ rest : String, (handleNonStreamingChat false comp msg now).message.text =
      ("Echo: " ++ msg) ++ rest) ∧
    (handleNonStreamingChat false comp "Hello, test!" now).message.text =
      "Echo: Hello, test!" ++ "\n\n" ++ noKeyNote := by
  refine ⟨rfl, ⟨"\n\n" ++ noKeyNote, ?_⟩, rfl⟩
  show "Echo: " ++ msg ++ "\n\n" ++ noKeyNote = ("Echo: " ++ msg) ++ ("\n\n" ++ noKeyNote)
  rw [String.append_assoc]

theorem c4_no_credential_echo_witness :
    (handleNonStreamingChat false (Except.ok "x") "Hello, test!" "t0").message.text =
      "Echo: Hello, test!" ++ "\n\n" ++ noKeyNote :=
  (c4_no_credential_echo "Hello, test!" "t0" (Except.ok "x") (by decide)).2.2

/-- C9: the usage statistics are the whitespace word counts of the request
message and of the produced response text, with the total their sum, and the
word count of `"Hello, test!"` is 2. -/
theorem c9_usage_accounting (avail : Bool) (comp : Except String String) (msg now : String) :
    (handleNonStreamingChat avail comp msg now).usage.promptTokens = wordCount msg ∧
    (handleNonStreamingChat avail comp msg now).usage.completionTokens =
      wordCount ((handleNonStreamingChat avail comp msg now).message.text) ∧
    (handleNonStreamingChat avail comp msg now).usage.totalTokens =
      wordCount msg + wordCount ((handleNonStreamingChat avail comp msg now).message.text) ∧
    wordCount "Hello, test!" = 2 :=
  ⟨rfl, rfl, rfl, by decide⟩

/-- The attribute names defined on `MCPService` in `mcp_service.py` (its
fields set in `__init__` and its methods).  Neither `get_tools` nor
`call_tool` is among them, so accessing them raises `AttributeError`. -/
def mcpServiceAttrs : List String :=
  ["config_path", "config", "mcp_server",
   "_load_config", "_setup_mcp_server", "_register_tools", "_register_tool",
   "_register_resources", "_register_resource",
   "get_mcp_server", "get_tools_for_claude", "execute_tool"]

/-- The Python `AttributeError` message for a missing `MCPService` attribute. -/
def mcpAttrError (attr : String) : String :=
  "\x27MCPService\x27 object has no attribute \x27" ++ attr ++ "\x27"

/-- `mcp_service.get_tools()` as executed against the real `MCPService`:
an attribute lookup that raises because the name is not defined on the class
(the `ok` arm is unreachable). -/
def realGetTools : Except String (List ToolSpec) :=
  if "get_tools" ∈ mcpServiceAttrs then Except.ok []
  else Except.error (mcpAttrError "get_tools")

/-- `mcp_service.call_tool(...)` against the real `MCPService`: likewise an
attribute lookup that raises (the `ok` arm is unreachable). -/
def realCallTool (name input : String) : Except String String :=
  if "call_tool" ∈ mcpServiceAttrs then Except.ok (name ++ input)
  else Except.error (mcpAttrError "call_tool")

/-- The registry environment the production (non-mocked) service runs in. -/
def realEnv : Env := ⟨realGetTools, realCallTool⟩

/-- C7: neither `get_tools` nor `call_tool` exists on `MCPService`, so with a
credential configured every non-streaming completion raises (wrapped as a
`Claude API error` carrying the `AttributeError` text) before any gateway
response is consumed — the equation holds for every scripted gateway — and the
endpoint converts it into the echo-with-error-note fallback, never a
model-generated answer. -/
theorem c7_registry_operations_missing (script : List Response) (msg now : String)
    (hist : List Message) :
    mcpServiceAttrs.contains "get_tools" = false ∧
    mcpServiceAttrs.contains "call_tool" = false ∧
    getCompletion realEnv script msg hist =
      Except.error ("Claude API error: " ++ mcpAttrError "get_tools") ∧
    (handleNonStreamingChat true ((getCompletion realEnv script msg []).map Prod.fst)
        msg now).message.text =
      "Echo: " ++ msg ++ "\n\n" ++ "Note: Claude encountered an error: " ++
        ("Claude API error: " ++ mcpAttrError "get_tools") := by
  refine ⟨by decide, by decide, ?_, ?_⟩
  · cases script <;> rfl
  · have h3 : getCompletion realEnv script msg [] =
        Except.error ("Claude API error: " ++ mcpAttrError "get_tools") := by
      cases script <;> rfl
    rw [h3]
    rfl

/-- One Server-Sent Event frame of the streaming generator, before JSON
serialization: a `content` fragment, the terminal `done`, or an `error`. -/
inductive SSEEvent
  | content (id : String) (fragment : String)
  | done (id : String) (timestamp : String)
  | error (err : String)
deriving DecidableEq

/-- One `content` event per character of the list (the `for char in ...`
loops of `generate_streaming_response`). -/
def charEventsL (id : String) : List Char → List SSEEvent
  | [] => []
  | c :: cs => SSEEvent.content id (String.singleton c) :: charEventsL id cs

/-- Character events for a whole string. -/
def charEvents (id : String) (s : String) : List SSEEvent := charEventsL id s.data

/-- The words after the first in the available branch: each is preceded by a
single-space `content` event (the `if i > 0` guard), then streamed character
by character. -/
def restWordEvents (id : String) : List String → List SSEEvent
  | [] => []
  | w :: ws => SSEEvent.content id " " :: (charEvents id w ++ restWordEvents id ws)

/-- The `for i, word in enumerate(words)` loop of the available branch. -/
def wordEvents (id : String) : List String → List SSEEvent
  | [] => []
  | w :: ws => charEvents id w ++ restWordEvents id ws

/-- `generate_streaming_response` (`router.py`, lines 62-134): with no
credential, stream the full echo-plus-note message character by character;
with a credential, stream `"Echo: "` and then the whitespace-split words of
the request message separated by single spaces (the Claude gateway is never
consulted — the branch is a placeholder echo); both branches end with one
`done` event.  `id` and `now` stand in for the timestamp-derived message id
and the completion timestamp. -/
def generateStreamingResponse (available : Bool) (message id now : String) :
    List SSEEvent :=
  if available then
    charEvents id "Echo: " ++ wordEvents id (pySplitWs message) ++ [SSEEvent.done id now]
  else
    charEvents id (echoUnavailableText message) ++ [SSEEvent.done id now]

/-- Fold step of `concatContents`. -/
def contentStep (acc : String) : SSEEvent → String
  | SSEEvent.content _ c => acc ++ c
  | _ => acc

/-- The concatenation of the fragments of all `content` events, in order. -/
def concatContents (evs : List SSEEvent) : String := evs.foldl contentStep ""

/-- How many `done` events the stream carries. -/
def doneCount (evs : List SSEEvent) : Nat :=
  (evs.filter fun e => match e with | SSEEvent.done _ _ => true | _ => false).length

theorem string_append_empty (s : String) : s ++ "" = s := by
  apply String.ext
  rw [String.data_append]
  exact List.append_nil s.data

theorem foldl_charEventsL (id : String) (cs : List Char) (acc : String) :
    List.foldl contentStep acc (charEventsL id cs) = acc ++ ⟨cs⟩ := by
  induction cs generalizing acc with
  | nil => exact (string_append_empty acc).symm
  | cons c cs ih =>
    show List.foldl contentStep (acc ++ String.singleton c) (charEventsL id cs) = _
    rw [ih]
    apply String.ext
    simp [String.data_append, String.singleton]

theorem foldl_charEvents (id : String) (s : String) (acc : String) :
    List.foldl contentStep acc (charEvents id s) = acc ++ s :=
  foldl_charEventsL id s.data acc

theorem foldl_restWordEvents (id : String) (ws : List String) (acc : String) :
    List.foldl contentStep acc (restWordEvents id ws) = acc ++ joinRest ws := by
  induction ws generalizing acc with
  | nil => exact (string_append_empty acc).symm
  | cons w ws ih =>
    show List.foldl contentStep (acc ++ " ") (charEvents id w ++ restWordEvents id ws) = _
    rw [List.foldl_append, foldl_charEvents, ih]
    apply String.ext
    simp [String.data_append, joinRest]

theorem foldl_wordEvents (id : String) (ws : List String) (acc : String) :
    List.foldl contentStep acc (wordEvents id ws) = acc ++ joinWords ws := by
  cases ws with
  | nil => exact (string_append_empty acc).symm
  | cons w ws =>
    show List.foldl contentStep acc (charEvents id w ++ restWordEvents id ws) = _
    rw [List.foldl_append, foldl_charEvents, foldl_restWordEvents]
    apply String.ext
    simp [String.data_append, joinWords]

theorem doneCount_charEventsL (id : String) (cs : List Char) :
    doneCount (charEventsL id cs) = 0 := by
  induction cs with
  | nil => rfl
  | cons c cs ih => simpa [doneCount, charEventsL] using ih

theorem doneCount_append (l₁ l₂ : List SSEEvent) :
    doneCount (l₁ ++ l₂) = doneCount l₁ + doneCount l₂ := by
  simp [doneCount, List.filter_append]

theorem doneCount_charEvents (id s : String) : doneCount (charEvents id s) = 0 :=
  doneCount_charEventsL id s.data

theorem doneCount_cons_content (i c : String) (l : List SSEEvent) :
    doneCount (SSEEvent.content i c :: l) = doneCount l := by
  simp [doneCount]

theorem doneCount_restWordEvents (id : String) (ws : List String) :
    doneCount (restWordEvents id ws) = 0 := by
  induction ws with
  | nil => rfl
  | cons w ws ih =>
    show doneCount (SSEEvent.content id " " :: (charEvents id w ++ restWordEvents id ws)) = 0
    rw [doneCount_cons_content, doneCount_append, doneCount_charEvents, ih]

theorem doneCount_wordEvents (id : String) (ws : List String) :
    doneCount (wordEvents id ws) = 0 := by
  cases ws with
  | nil => rfl
  | cons w ws =>
    show doneCount (charEvents id w ++ restWordEvents id ws) = 0
    rw [doneCount_append, doneCount_charEvents, doneCount_restWordEvents]

/-- C5: with no credential, concatenating every `content` fragment of the
streamed events reproduces byte for byte the echoed text the non-streaming
path would produce, and the stream carries exactly one `done` event, as its
last event. -/
theorem c5_streaming_echo_matches (msg id now : String) (comp : Except String String) :
    concatContents (generateStreamingResponse false msg id now) =
      responseTextFor false comp msg ∧
    doneCount (generateStreamingResponse false msg id now) = 1 ∧
    (generateStreamingResponse false msg id now).getLast? =
      some (SSEEvent.done id now) := by
  refine ⟨?_, ?_, ?_⟩
  · show List.foldl contentStep ""
      (charEvents id (echoUnavailableText msg) ++ [SSEEvent.done id now]) = _
    rw [List.foldl_append, foldl_charEvents]
    rfl
  · show doneCount (charEvents id (echoUnavailableText msg) ++ [SSEEvent.done id now]) = 1
    rw [doneCount_append, doneCount_charEvents]
    rfl
  · show (charEvents id (echoUnavailableText msg) ++ [SSEEvent.done id now]).getLast? = _
    exact List.getLast?_concat _

/-- C10: with a credential configured, the streaming endpoint still never
contacts the model: its `content` fragments concatenate to `"Echo: "` followed
by the message's whitespace-split words rejoined with single spaces (so runs
of whitespace collapse — for `"a  b"` the output is `"Echo: a b"`, not the
input bytes), no note is appended, and the stream ends with exactly one
`done` event. -/
theorem c10_streaming_available_echo (msg id now : String) :
    concatContents (generateStreamingResponse true msg id now) =
      "Echo: " ++ joinWords (pySplitWs msg) ∧
    doneCount (generateStreamingResponse true msg id now) = 1 ∧
    (generateStreamingResponse true msg id now).getLast? =
      some (SSEEvent.done id now) ∧
    concatContents (generateStreamingResponse true "a  b" id now) = "Echo: a b" ∧
    concatContents (generateStreamingResponse true "a  b" id now) ≠
      "Echo: " ++ "a  b" := by
  have key : ∀ m : String, concatContents (generateStreamingResponse true m id now) =
      "Echo: " ++ joinWords (pySplitWs m) := by
    intro m
    show List.foldl contentStep ""
      (charEvents id "Echo: " ++ wordEvents id (pySplitWs m) ++ [SSEEvent.done id now]) = _
    rw [List.foldl_append, List.foldl_append, foldl_charEvents, foldl_wordEvents]
    rfl
  refine ⟨key msg, ?_, ?_, ?_, ?_⟩
  · show doneCount
      (charEvents id "Echo: " ++ wordEvents id (pySplitWs msg) ++ [SSEEvent.done id now]) = 1
    rw [doneCount_append, doneCount_append, doneCount_charEvents, doneCount_wordEvents]
    rfl
  · show (charEvents id "Echo: " ++ wordEvents id (pySplitWs msg) ++
      [SSEEvent.done id now]).getLast? = _
    rw [List.append_assoc]
    rw [show charEvents id "Echo: " ++ (wordEvents id (pySplitWs msg) ++ [SSEEvent.done id now]) = (charEvents id "Echo: " ++ wordEvents id (pySplitWs msg)) ++ [SSEEvent.done id now] from (List.append_assoc _ _ _).symm]
    exact List.getLast?_concat _
  · rw [key "a  b"]
    decide
  · rw [key "a  b"]
    decide

/-- A scalar JSON value (integer or string) as it appears as a field value of
a tool-argument object. -/
inductive JScalar
  | int (n : Int)
  | str (s : String)
deriving DecidableEq

/-- A parsed JSON payload: a scalar, or a flat object of scalar fields — the
shapes tool-argument payloads take in this code base. -/
inductive JVal
  | int (n : Int)
  | str (s : String)
  | obj (fields : List (String × JScalar))
deriving DecidableEq

/-- Skip JSON whitespace. -/
def skipWs : List Char → List Char
  | [] => []
  | c :: cs => if c = ' ' ∨ c = '\t' ∨ c = '\n' ∨ c = '\r' then skipWs cs else c :: cs

/-- Read the characters of a JSON string literal up to the closing quote
(escape-free strings, as in the payloads here). -/
def takeStr : List Char → Option (List Char × List Char)
  | [] => none
  | c :: cs =>
    if c = '\"' then some ([], cs)
    else
      match takeStr cs with
      | none => none
      | some (chars, rest) => some (c :: chars, rest)

/-- Split a leading run of decimal digits. -/
def takeDigits : List Char → List Char × List Char
  | [] => ([], [])
  | c :: cs =>
    if c.isDigit then
      let r := takeDigits cs
      (c :: r.1, r.2)
    else ([], c :: cs)

/-- Decimal digits to a natural number. -/
def digitsToNat (ds : List Char) : Nat := ds.foldl (fun n c => 10 * n + (c.toNat - 48)) 0

/-- Parse one scalar JSON value (string, or possibly negative integer). -/
def parseScalar : List Char → Option (JScalar × List Char)
  | [] => none
  | c :: cs =>
    if c = '\"' then
      match takeStr cs with
      | none => none
      | some (chars, rest) => some (JScalar.str ⟨chars⟩, rest)
    else if c = '-' then
      match takeDigits cs with
      | ([], _) => none
      | (ds, rest) => some (JScalar.int (-(digitsToNat ds : Int)), rest)
    else if c.isDigit then
      let r := takeDigits (c :: cs)
      some (JScalar.int (digitsToNat r.1), r.2)
    else none

/-- Parse one or more `"key": value` pairs separated by commas, starting at a
quote; returns the pairs and the unconsumed (whitespace-skipped) remainder. -/
def parsePairsAux : Nat → List Char → Option (List (String × JScalar) × List Char)
  | 0, _ => none
  | fuel + 1, input =>
    match input with
    | '\"' :: cs =>
      match takeStr cs with
      | none => none
      | some (key, rest1) =>
        match skipWs rest1 with
        | ':' :: rest2 =>
          match parseScalar (skipWs rest2) with
          | none => none
          | some (v, rest3) =>
            match skipWs rest3 with
            | ',' :: rest4 =>
              match parsePairsAux fuel (skipWs rest4) with
              | none => none
              | some (pairs, rest5) => some ((⟨key⟩, v) :: pairs, rest5)
            | rest4 => some ([(⟨key⟩, v)], rest4)
        | _ => none
    | _ => none

/-- Modelled from the spec: Python's `json.loads` on the JSON fragment the
streaming tool-argument payloads use — a scalar, or one flat object of
string-keyed scalar fields; any other or incomplete input fails (raises
`JSONDecodeError`), and trailing non-whitespace input fails. -/
def jsonLoads (s : String) : Option JVal :=
  match skipWs s.data with
  | [] => none
  | c :: cs =>
    if c = Char.ofNat 123 then
      match skipWs cs with
      | [] => none
      | d :: ds =>
        if d = Char.ofNat 125 then
          match skipWs ds with
          | [] => some (JVal.obj [])
          | _ => none
        else
          match parsePairsAux (cs.length + 1) (d :: ds) with
          | none => none
          | some (pairs, rest) =>
            match rest with
            | [] => none
            | e :: es =>
              if e = Char.ofNat 125 then
                match skipWs es with
                | [] => some (JVal.obj pairs)
                | _ => none
              else none
    else
      match parseScalar (c :: cs) with
      | none => none
      | some (v, rest) =>
        match skipWs rest with
        | [] =>
          match v with
          | JScalar.int n => some (JVal.int n)
          | JScalar.str t => some (JVal.str t)
        | _ => none

/-- One event of the Anthropic streaming session, as inspected by
`ClaudeEnhancedService.get_streaming_completion_with_tools` (lines 187-209 of
`claude_enhanced.py`): a `content_block_start` for a tool-use block (or for
any other block), a text `content_block_delta`, a `partial_json`
`content_block_delta`, or a `content_block_stop`. -/
inductive StreamEvent
  | blockStartToolUse (id name : String)
  | blockStartOther
  | deltaText (text : String)
  | deltaJson (payload : String)
  | blockStop
deriving DecidableEq

/-- The `current_tool_use` record: call id, tool name, and the argument value
(initially the empty object `{}`). -/
structure PendingTool where
  id : String
  name : String
  input : JVal
deriving DecidableEq

/-- The loop state: the pending record, the completed `tool_uses` list, and
the text fragments yielded so far. -/
structure EnhState where
  current : Option PendingTool
  completed : List PendingTool
  yielded : List String
deriving DecidableEq

/-- One iteration of the enhanced streaming event loop: a tool-use block start
opens a pending record; a text delta is yielded; a `partial_json` delta is
parsed as complete JSON on its own and, when the parse succeeds, overwrites
the pending record's `input` (a failed parse is ignored — the `except
json.JSONDecodeError: pass`); a block stop moves the pending record to the
completed list.  `parse` stands for `json.loads`. -/
def enhStep (parse : String → Option JVal) (st : EnhState) : StreamEvent → EnhState
  | StreamEvent.blockStartToolUse i n =>
    { st with current := some ⟨i, n, JVal.obj []⟩ }
  | StreamEvent.blockStartOther => st
  | StreamEvent.deltaText t => { st with yielded := st.yielded ++ [t] }
  | StreamEvent.deltaJson p =>
    match st.current with
    | some cur =>
      match parse p with
      | some v => { st with current := some { cur with input := v } }
      | none => st
    | none => st
  | StreamEvent.blockStop =>
    match st.current with
    | some cur => { st with current := none, completed := st.completed ++ [cur] }
    | none => st

/-- Run the event loop over a whole session. -/
def enhRun (parse : String → Option JVal) (events : List StreamEvent) : EnhState :=
  events.foldl (enhStep parse) ⟨none, [], []⟩

/-- The `(name, arguments)` pairs the post-stream loop hands to
`_execute_mcp_tool`, in order. -/
def executedArgs (parse : String → Option JVal) (events : List StreamEvent) :
    List (String × JVal) :=
  (enhRun parse events).completed.map fun t => (t.name, t.input)

/-- The payload of the last argument-delta event of the session. -/
def lastJsonDelta (events : List StreamEvent) : Option String :=
  (events.filterMap fun e =>
    match e with
    | StreamEvent.deltaJson p => some p
    | _ => none).getLast?

/-- The parse of the last delta that parses successfully, if any. -/
def lastSuccessfulParse (parse : String → Option JVal) (deltas : List String) :
    Option JVal :=
  (deltas.filterMap parse).getLast?

theorem getLast?_cons' {α : Type} (a : α) (l : List α) :
    (a :: l).getLast? = some ((l.getLast?).getD a) := by
  induction l generalizing a with
  | nil => rfl
  | cons b l ih =>
    have h1 : (a :: b :: l).getLast? = (b :: l).getLast? := rfl
    rw [h1, ih b]
    rfl

theorem overwrite_foldl (parse : String → Option JVal) (deltas : List String) (init : JVal) :
    deltas.foldl (fun acc d => (parse d).getD acc) init =
      (lastSuccessfulParse parse deltas).getD init := by
  induction deltas generalizing init with
  | nil => rfl
  | cons d ds ih =>
    show List.foldl _ ((parse d).getD init) ds = _
    rw [ih]
    unfold lastSuccessfulParse
    cases hp : parse d with
    | none =>
      simp only [List.filterMap_cons, hp]
      rfl
    | some v =>
      simp only [List.filterMap_cons, hp, getLast?_cons']
      rfl

theorem enhFold_deltas (parse : String → Option JVal) (deltas : List String)
    (i n : String) (v : JVal) (comp : List PendingTool) (ys : List String) :
    List.foldl (enhStep parse) ⟨some ⟨i, n, v⟩, comp, ys⟩
        (deltas.map StreamEvent.deltaJson) =
      ⟨some ⟨i, n, deltas.foldl (fun acc d => (parse d).getD acc) v⟩, comp, ys⟩ := by
  induction deltas generalizing v with
  | nil => rfl
  | cons d ds ih =>
    simp only [List.map_cons, List.foldl_cons]
    cases hp : parse d with
    | none =>
      simp only [enhStep, hp]
      exact ih v
    | some w =>
      simp only [enhStep, hp]
      exact ih w

/-- C2 (amended): in the enhanced streaming loop, each argument-delta is
parsed as complete JSON on its own (never concatenated with earlier deltas);
a delta that parses successfully overwrites the pending record's argument
field and a delta that fails to parse is ignored, so the arguments finally
executed equal the parse of the last delta that parses as valid JSON — the
empty object if none does — rather than of the last delta received. -/
theorem c2_streaming_args_amended (parse : String → Option JVal) (i n : String)
    (deltas : List String) :
    executedArgs parse
        (StreamEvent.blockStartToolUse i n ::
          (deltas.map StreamEvent.deltaJson ++ [StreamEvent.blockStop])) =
      [(n, (lastSuccessfulParse parse deltas).getD (JVal.obj []))] := by
  unfold executedArgs enhRun
  rw [List.foldl_cons, List.foldl_append]
  have h1 : enhStep parse ⟨none, [], []⟩ (StreamEvent.blockStartToolUse i n) =
      ⟨some ⟨i, n, JVal.obj []⟩, [], []⟩ := rfl
  rw [h1, enhFold_deltas]
  rw [overwrite_foldl]
  rfl

/-- A session carrying two snapshot payloads: the first parses; the second
(truncated) does not. -/
def c2CexSession : List StreamEvent :=
  [StreamEvent.blockStartToolUse "toolu_1" "calculate",
   StreamEvent.deltaJson "\x7b\"b\": 2\x7d",
   StreamEvent.deltaJson "\x7b\"a\": 1",
   StreamEvent.blockStop]

/-- C2 counterexample: the last delta received does not parse as JSON, so it
does not overwrite the pending record, and the arguments finally executed are
the parse of the earlier delta — not the parse of the last delta received, as
the claim states. -/
theorem c2_streaming_args_counterexample :
    lastJsonDelta c2CexSession = some "\x7b\"a\": 1" ∧
    jsonLoads "\x7b\"a\": 1" = none ∧
    jsonLoads "\x7b\"b\": 2\x7d" = some (JVal.obj [("b", JScalar.int 2)]) ∧
    executedArgs jsonLoads c2CexSession =
      [("calculate", JVal.obj [("b", JScalar.int 2)])] := by
  decide

/-- A Python value passed as a tool parameter: a string or an integer. -/
inductive PyVal
  | str (s : String)
  | int (n : Int)
deriving DecidableEq

/-- The `parameters` dict handed to `MCPService.execute_tool`. -/
abbrev Params := List (String × PyVal)

/-- Python `parameters.get(key, default)`. -/
def paramsGet (p : Params) (k : String) (d : PyVal) : PyVal :=
  match p.find? (fun kv => kv.1 == k) with
  | some kv => kv.2
  | none => d

/-- How a parameter value renders when interpolated into the f-strings of
`execute_tool` (`str` for strings, decimal for integers). -/
def asPyStr : PyVal → String
  | PyVal.str s => s
  | PyVal.int n => toString n

/-- The oracle for the effectful parts of `execute_tool`: the clock and
timezone formatting, uuid generation, Python `eval` (result already rendered
to its `str`, or the exception text), the base64/url transforms, and the
random draws of the mock weather (condition already title-cased). -/
structure ToolOracle where
  pytzOk : String → Bool
  nowWithTz : String → String
  nowLocal : String
  uuid1 : String
  uuid4 : String
  evalExpr : String → Except String String
  b64encode : String → String
  b64decode : String → Except String String
  urlQuote : String → String
  urlUnquote : String → String
  tempC : Int
  tempF : Int
  conditionTitle : String
  humidity : Int
  windSpeed : Int
  weatherNow : String

/-- The character whitelist of the `calculate` branch. -/
def calcAllowedChars : List Char := "0123456789+-*/.() ".data

/-- The `get_current_time` branch: pytz path, or the local-time fallback when
anything in the pytz path raises. -/
def runGetCurrentTime (o : ToolOracle) (params : Params) : String :=
  if o.pytzOk (asPyStr (paramsGet params "timezone" (PyVal.str "UTC"))) then
    "Current time in " ++ asPyStr (paramsGet params "timezone" (PyVal.str "UTC")) ++ ": " ++
      o.nowWithTz (asPyStr (paramsGet params "timezone" (PyVal.str "UTC")))
  else "Current time (UTC): " ++ o.nowLocal

/-- The `calculate` branch: whitelist check, then `eval` (whose exception, if
any, escapes to the outer handler of `execute_tool`). -/
def runCalculate (o : ToolOracle) (params : Params) : Except String String :=
  if (asPyStr (paramsGet params "expression" (PyVal.str ""))).data.all
      (fun c => calcAllowedChars.contains c) then
    match o.evalExpr (asPyStr (paramsGet params "expression" (PyVal.str ""))) with
    | Except.ok r =>
      Except.ok ("Result: " ++ asPyStr (paramsGet params "expression" (PyVal.str "")) ++
        " = " ++ r)
    | Except.error e => Except.error e
  else Except.ok "Error: Invalid characters in expression."

/-- The `generate_uuid` branch. -/
def runGenerateUuid (o : ToolOracle) (params : Params) : String :=
  if paramsGet params "version" (PyVal.int 4) = PyVal.int 1 then
    "Generated UUID (version " ++ asPyStr (paramsGet params "version" (PyVal.int 4)) ++
      "): " ++ o.uuid1
  else
    "Generated UUID (version " ++ asPyStr (paramsGet params "version" (PyVal.int 4)) ++
      "): " ++ o.uuid4

/-- The `encode_decode_text` branch (a failing base64 decode escapes to the
outer handler). -/
def runEncodeDecode (o : ToolOracle) (params : Params) : Except String String :=
  if asPyStr (paramsGet params "operation" (PyVal.str "")) = "base64_encode" then
    Except.ok ("Base64 encoded: " ++ o.b64encode (asPyStr (paramsGet params "text" (PyVal.str ""))))
  else if asPyStr (paramsGet params "operation" (PyVal.str "")) = "base64_decode" then
    match o.b64decode (asPyStr (paramsGet params "text" (PyVal.str ""))) with
    | Except.ok d => Except.ok ("Base64 decoded: " ++ d)
    | Except.error e => Except.error e
  else if asPyStr (paramsGet params "operation" (PyVal.str "")) = "url_encode" then
    Except.ok ("URL encoded: " ++ o.urlQuote (asPyStr (paramsGet params "text" (PyVal.str ""))))
  else if asPyStr (paramsGet params "operation" (PyVal.str "")) = "url_decode" then
    Except.ok ("URL decoded: " ++ o.urlUnquote (asPyStr (paramsGet params "text" (PyVal.str ""))))
  else
    Except.ok ("Error: Unknown operation \x27" ++
      asPyStr (paramsGet params "operation" (PyVal.str "")) ++ "\x27")

/-- The `weather_info` branch (mock data from the oracle's random draws). -/
def runWeatherInfo (o : ToolOracle) (params : Params) : String :=
  "Weather for " ++ asPyStr (paramsGet params "location" (PyVal.str "")) ++
    ":\n- Temperature: " ++
    toString (if asPyStr (paramsGet params "units" (PyVal.str "celsius")) = "celsius"
      then o.tempC else o.tempF) ++
    (if asPyStr (paramsGet params "units" (PyVal.str "celsius")) = "celsius"
      then "°C" else "°F") ++
    "\n- Condition: " ++ o.conditionTitle ++
    "\n- Humidity: " ++ toString o.humidity ++
    "%\n- Wind Speed: " ++ toString o.windSpeed ++
    " km/h\n- Last Updated: " ++ o.weatherNow ++
    "\n\nNote: This is mock weather data for demonstration purposes."

/-- The body of `MCPService.execute_tool` (`mcp_service.py`, lines 235-308):
dispatch on the hardcoded tool names, falling through to the
`Error: Unknown tool` string for anything else — there is no name-pattern
validation.  An `error` result stands for an exception escaping the branch. -/
def executeToolBody (o : ToolOracle) (name : String) (params : Params) :
    Except String String :=
  if name = "get_current_time" then Except.ok (runGetCurrentTime o params)
  else if name = "calculate" then runCalculate o params
  else if name = "generate_uuid" then Except.ok (runGenerateUuid o params)
  else if name = "encode_decode_text" then runEncodeDecode o params
  else if name = "weather_info" then Except.ok (runWeatherInfo o params)
  else Except.ok ("Error: Unknown tool \x27" ++ name ++ "\x27")

/-- `MCPService.execute_tool` with its outer `try`/`except` (lines 310-311):
any exception raised by a branch is converted into an error-describing
string, so the invocation never raises. -/
def executeTool (o : ToolOracle) (name : String) (params : Params) : String :=
  match executeToolBody o name params with
  | Except.ok s => s
  | Except.error e => "Error executing tool " ++ name ++ ": " ++ e

/-- The tool names `execute_tool` dispatches on. -/
def registeredToolNames : List String :=
  ["get_current_time", "calculate", "generate_uuid", "encode_decode_text", "weather_info"]

/-- A concrete oracle for the closed runs. -/
def defaultOracle : ToolOracle :=
  { pytzOk := fun _ => true,
    nowWithTz := fun tz => "2026-01-01 00:00:00 " ++ tz,
    nowLocal := "2026-01-01 00:00:00",
    uuid1 := "fixed-uuid-1", uuid4 := "fixed-uuid-4",
    evalExpr := fun _ => Except.ok "2",
    b64encode := fun s => s, b64decode := fun s => Except.ok s,
    urlQuote := fun s => s, urlUnquote := fun s => s,
    tempC := 20, tempF := 68, conditionTitle := "Sunny",
    humidity := 50, windSpeed := 10, weatherNow := "2026-01-01 00:00:00" }

theorem runGetCurrentTime_ne_empty (o : ToolOracle) (params : Params) :
    runGetCurrentTime o params ≠ "" := by
  unfold runGetCurrentTime
  split
  · exact append_ne_empty_left _ _ (append_ne_empty_left _ _
      (append_ne_empty_left _ _ (by decide)))
  · exact append_ne_empty_left _ _ (by decide)

theorem runGenerateUuid_ne_empty (o : ToolOracle) (params : Params) :
    runGenerateUuid o params ≠ "" := by
  unfold runGenerateUuid
  split
  · exact append_ne_empty_left _ _ (append_ne_empty_left _ _
      (append_ne_empty_left _ _ (by decide)))
  · exact append_ne_empty_left _ _ (append_ne_empty_left _ _
      (append_ne_empty_left _ _ (by decide)))

theorem runWeatherInfo_ne_empty (o : ToolOracle) (params : Params) :
    runWeatherInfo o params ≠ "" := by
  unfold runWeatherInfo
  repeat apply append_ne_empty_left
  decide

theorem runCalculate_ok_ne_empty (o : ToolOracle) (params : Params) (s : String)
    (hs : runCalculate o params = Except.ok s) : s ≠ "" := by
  unfold runCalculate at hs
  split at hs
  · split at hs
    · cases hs
      exact append_ne_empty_left _ _ (append_ne_empty_left _ _
        (append_ne_empty_left _ _ (by decide)))
    · cases hs
  · cases hs
    decide

theorem executeTool_calculate_ne_empty (o : ToolOracle) (params : Params) :
    executeTool o "calculate" params ≠ "" := by
  show (match runCalculate o params with
        | Except.ok s => s
        | Except.error e => "Error executing tool " ++ "calculate" ++ ": " ++ e) ≠ ""
  cases hc : runCalculate o params with
  | ok s => exact runCalculate_ok_ne_empty o params s hc
  | error e =>
    show "Error executing tool " ++ "calculate" ++ ": " ++ e ≠ ""
    exact append_ne_empty_left _ _ (append_ne_empty_left _ _ (by decide))

theorem runEncodeDecode_ok_ne_empty (o : ToolOracle) (params : Params) (s : String)
    (hs : runEncodeDecode o params = Except.ok s) : s ≠ "" := by
  unfold runEncodeDecode at hs
  split at hs
  · cases hs
    exact append_ne_empty_left _ _ (by decide)
  · split at hs
    · split at hs
      · cases hs
        exact append_ne_empty_left _ _ (by decide)
      · cases hs
    · split at hs
      · cases hs
        exact append_ne_empty_left _ _ (by decide)
      · split at hs
        · cases hs
          exact append_ne_empty_left _ _ (by decide)
        · cases hs
          exact append_ne_empty_left _ _ (append_ne_empty_left _ _ (by decide))

theorem executeTool_encode_decode_ne_empty (o : ToolOracle) (params : Params) :
    executeTool o "encode_decode_text" params ≠ "" := by
  show (match runEncodeDecode o params with
        | Except.ok s => s
        | Except.error e => "Error executing tool " ++ "encode_decode_text" ++ ": " ++ e) ≠ ""
  cases hc : runEncodeDecode o params with
  | ok s => exact runEncodeDecode_ok_ne_empty o params s hc
  | error e =>
    show "Error executing tool " ++ "encode_decode_text" ++ ": " ++ e ≠ ""
    exact append_ne_empty_left _ _ (append_ne_empty_left _ _ (by decide))

/-- C6 (amended): `execute_tool` performs no name validation and raises no
domain errors: a malformed name like `"../etc"` is answered with the same
`Error: Unknown tool` string an unregistered name receives (returned normally,
not raised), and for every registered tool and any arguments the invocation
returns a non-empty string — internal failures are converted into
error-describing strings and nothing escapes the invoke boundary. -/
theorem c6_tool_error_discipline_amended (o : ToolOracle) (params : Params)
    (name : String) (h : name ∈ registeredToolNames) :
    executeTool o name params ≠ "" ∧
    executeTool o "../etc" params = "Error: Unknown tool \x27../etc\x27" ∧
    executeTool o "unregistered_tool" params =
      "Error: Unknown tool \x27unregistered_tool\x27" := by
  refine ⟨?_, rfl, rfl⟩
  simp only [registeredToolNames, List.mem_cons, List.not_mem_nil, or_false] at h
  rcases h with rfl | rfl | rfl | rfl | rfl
  · show runGetCurrentTime o params ≠ ""
    exact runGetCurrentTime_ne_empty o params
  · exact executeTool_calculate_ne_empty o params
  · show runGenerateUuid o params ≠ ""
    exact runGenerateUuid_ne_empty o params
  · exact executeTool_encode_decode_ne_empty o params
  · show runWeatherInfo o params ≠ ""
    exact runWeatherInfo_ne_empty o params

theorem c6_tool_error_discipline_witness :
    executeTool defaultOracle "calculate" [("expression", PyVal.str "1+1")] ≠ "" ∧
    executeTool defaultOracle "../etc" [] = "Error: Unknown tool \x27../etc\x27" ∧
    executeTool defaultOracle "unregistered_tool" [] =
      "Error: Unknown tool \x27unregistered_tool\x27" :=
  c6_tool_error_discipline_amended defaultOracle [("expression", PyVal.str "1+1")]
    "calculate" (by decide)

/-- C6 counterexample: invoking with the malformed name `"../etc"` does not
fail with `InvalidToolName` (nor does an unregistered name fail with
`UnknownTool`): the call returns normally with the generic unknown-tool
string, identical in shape for both names. -/
theorem c6_invalid_name_counterexample :
    executeToolBody defaultOracle "../etc" [] =
      Except.ok "Error: Unknown tool \x27../etc\x27" ∧
    executeTool defaultOracle "../etc" [] = "Error: Unknown tool \x27../etc\x27" ∧
    executeToolBody defaultOracle "unregistered_tool" [] =
      Except.ok "Error: Unknown tool \x27unregistered_tool\x27" := by
  decide

end Chatbot
